import Mathlib

/-
Verification of the analog VU meter capture core.

Shallow embedding of the level-measurement pipeline of the repository:
the ballistics engine (src/VUBallistics.cpp), the PulseAudio capture
callback and session control (src/AudioCapture_linux.cpp) and the
CoreAudio counterparts (src/AudioCapture_macos.cpp).  C++ float and
double arithmetic is modelled over the reals; the C library rand()
call is modelled by passing the raw integer it returns as an explicit
argument, so the jitter expression ((rand() % 40) / 20000.0f) - 0.001f
becomes an exact function of that integer.
-/

namespace AnalogVu

/-! ## VUBallistics (src/VUBallistics.cpp) -/

/-- State of one ballistics engine instance: the fields value_ and
peak_ of class VUBallistics. -/
structure VUBallistics where
  value : ℝ
  peak : ℝ

/-- Constructor VUBallistics(initialDb): both states start at initialDb. -/
def VUBallistics.init (initialDb : ℝ) : VUBallistics :=
  { value := initialDb, peak := initialDb }

/-- Method VUBallistics::reset(valueDb): sets value_ and peak_ to valueDb. -/
def VUBallistics.reset (_b : VUBallistics) (valueDb : ℝ) : VUBallistics :=
  { value := valueDb, peak := valueDb }

/-- Free function onePole(y, x, dt, tau) of VUBallistics.cpp:
returns x when tau <= 0, otherwise a*y + (1-a)*x with a = exp(-dt/tau). -/
noncomputable def onePole (y x dt tau : ℝ) : ℝ :=
  if tau ≤ 0 then x
  else
    let a := Real.exp (-dt / tau)
    a * y + (1 - a) * x

/-- Constant attackTau of VUBallistics::process. -/
def attackTau : ℝ := 0.080

/-- Constant releaseTau of VUBallistics::process. -/
def releaseTau : ℝ := 0.320

/-- Constant peakAttackTau of VUBallistics::process. -/
def peakAttackTau : ℝ := 0.010

/-- Constant peakReleaseTau of VUBallistics::process. -/
def peakReleaseTau : ℝ := 0.200

/-- Constant overshootMix of VUBallistics::process. -/
def overshootMix : ℝ := 0.07

/-- Jitter term of VUBallistics::process, as a function of the integer
returned by rand(): ((rand() % 40) / 20000.0f) - 0.001f. -/
noncomputable def jitter (randVal : ℕ) : ℝ :=
  ((randVal % 40 : ℕ) : ℝ) / 20000 - 0.001

/-- State update performed by VUBallistics::process(targetDb, dtSeconds):
dtSeconds is first clamped to at least 0.000001, then value_ and peak_
are each advanced by onePole with a direction-dependent time constant. -/
noncomputable def VUBallistics.processState (b : VUBallistics) (targetDb dtSeconds : ℝ) :
    VUBallistics :=
  let dt := max 0.000001 dtSeconds
  let tau := if targetDb > b.value then attackTau else releaseTau
  let value1 := onePole b.value targetDb dt tau
  let peakTau := if targetDb > b.peak then peakAttackTau else peakReleaseTau
  let peak1 := onePole b.peak targetDb dt peakTau
  { value := value1, peak := peak1 }

/-- Deterministic part of the return value of VUBallistics::process:
the overshoot mix value_ + overshootMix * (peak_ - value_), computed from
the updated states, before the jitter term is added. -/
noncomputable def VUBallistics.processBase (b : VUBallistics) (targetDb dtSeconds : ℝ) : ℝ :=
  let b1 := b.processState targetDb dtSeconds
  b1.value + overshootMix * (b1.peak - b1.value)

/-- Return value of VUBallistics::process(targetDb, dtSeconds), with the
rand() result passed explicitly: the overshoot mix plus the jitter term. -/
noncomputable def VUBallistics.processOut (b : VUBallistics) (targetDb dtSeconds : ℝ)
    (randVal : ℕ) : ℝ :=
  b.processBase targetDb dtSeconds + jitter randVal

/-! ## AudioCapture data model (src/AudioCapture.h) -/

/-- Struct AudioCapture::Options.  deviceName is the optional device
override (empty string when unset, as with QString); deviceType is the
C++ int field (0 = sink monitor / system output, 1 = source / microphone). -/
structure Options where
  deviceIndex : ℤ
  referenceDbfs : ℝ
  referenceDbfsOverride : Bool
  sampleRate : ℕ
  framesPerBuffer : ℕ
  deviceName : String
  deviceType : ℤ

/-- Qt signals emitted by AudioCapture. -/
inductive Signal where
  | errorOccurred (message : String)
  | deviceChanged (deviceUID : String)
deriving DecidableEq

/-- Constant kMinVu of both platform files: the display floor. -/
def kMinVu : ℝ := -22

/-- Constant kMaxVu of both platform files: the display ceiling. -/
def kMaxVu : ℝ := 3

/-- Semantics of std::clamp(v, lo, hi): lo when v < lo, hi when hi < v,
otherwise v. -/
noncomputable def stdClamp (v lo hi : ℝ) : ℝ :=
  if v < lo then lo else if hi < v then hi else v

/-! ## Linux backend (src/AudioCapture_linux.cpp) -/

/-- Member state of one AudioCapture instance on the Linux build:
options_, currentDeviceUID_, the two published atomic floats, the
running_ flag and the two per-channel ballistics engines.  The
PulseAudio handles (mainloop_, context_, stream_, thread_) are opaque
resources owned by the backend and are not part of the value model. -/
structure CaptureState where
  options : Options
  currentDeviceUID : String
  leftVuDb : ℝ
  rightVuDb : ℝ
  running : Bool
  ballisticsL : VUBallistics
  ballisticsR : VUBallistics

/-- Constructor AudioCapture(options): currentDeviceUID_ starts as
options.deviceName, both published levels at -22 (the header member
initializers), running_ false, both ballistics engines at kMinVu. -/
def CaptureState.init (options : Options) : CaptureState :=
  { options := options
    currentDeviceUID := options.deviceName
    leftVuDb := -22
    rightVuDb := -22
    running := false
    ballisticsL := VUBallistics.init kMinVu
    ballisticsR := VUBallistics.init kMinVu }

/-- AudioCapture::start on Linux.  The env argument abstracts the three
PulseAudio setup calls (pa_mainloop_new, pa_context_new,
pa_context_connect): true when all succeed.  Each failure path frees the
partially built objects and stores running_ = false again, so on the
modelled fields every failure has the same net effect: state unchanged.
If running_.exchange(true) finds the session already running, start
returns true at once without touching anything. -/
def start (env : Bool) (s : CaptureState) : Bool × CaptureState :=
  if s.running then (true, s)
  else if env then (true, { s with running := true })
  else (false, s)

/-- AudioCapture::stop on Linux.  If running_.exchange(false) finds the
session not running it returns at once; otherwise it quits the mainloop,
joins the thread and frees the stream, context and mainloop, which on
the modelled fields leaves only running_ = false. -/
def stop (s : CaptureState) : CaptureState :=
  if s.running then { s with running := false } else s

/-- AudioCapture::switchDevice on Linux: stop(); reset both ballistics
engines and both published levels to kMinVu; set options_.deviceName to
the requested device; start().  On success currentDeviceUID_ is updated
and deviceChanged is emitted; on failure neither happens. -/
def switchDevice (env : Bool) (s : CaptureState) (deviceUID : String) :
    Bool × CaptureState × List Signal :=
  let s1 := stop s
  let s2 := { s1 with
    ballisticsL := s1.ballisticsL.reset kMinVu
    ballisticsR := s1.ballisticsR.reset kMinVu
    leftVuDb := kMinVu
    rightVuDb := kMinVu }
  let s3 := { s2 with options := { s2.options with deviceName := deviceUID } }
  let r := start env s3
  if r.1 then (true, { r.2 with currentDeviceUID := deviceUID }, [Signal.deviceChanged deviceUID])
  else (false, r.2, [])

/-- AudioCapture::setReferenceDbfs(value): stores the value and raises
the override flag. -/
def setReferenceDbfs (s : CaptureState) (value : ℝ) : CaptureState :=
  { s with options := { s.options with referenceDbfs := value, referenceDbfsOverride := true } }

/-- AudioCapture::referenceDbfs(): reads options_.referenceDbfs. -/
def referenceDbfs (s : CaptureState) : ℝ :=
  s.options.referenceDbfs

/-- Function-local static variables of AudioCapture::stream_read_callback
on the Linux build: prevL, prevR (pre-emphasis memory), rmsL_smooth,
rmsR_smooth (smoothed-power memory) and meterAwake (wake flag).  Being
static, there is exactly one copy of each, shared by every AudioCapture
instance whose callback runs in the process. -/
structure LinuxStatics where
  prevL : ℝ
  prevR : ℝ
  rmsLsmooth : ℝ
  rmsRsmooth : ℝ
  meterAwake : Bool

/-- Accumulator of the per-sample loop of the capture callbacks: the
pre-emphasis memory and the running sums of squares. -/
structure LoopState where
  prevL : ℝ
  prevR : ℝ
  sumL : ℝ
  sumR : ℝ

/-- Body of the per-sample loop of both capture callbacks, for frame i:
read rawL and rawR (mono duplicated when channels <= 1), apply the
transient pre-emphasis raw + 0.15 * (raw - prev), update prev and add
the squares to the sums. -/
def frameStep (data : ℕ → ℝ) (channels : ℕ) (i : ℕ) (st : LoopState) : LoopState :=
  let rawL := data (i * channels)
  let rawR := if 1 < channels then data (i * channels + 1) else rawL
  let l := rawL + 0.15 * (rawL - st.prevL)
  let r := rawR + 0.15 * (rawR - st.prevR)
  { prevL := rawL, prevR := rawR, sumL := st.sumL + l * l, sumR := st.sumR + r * r }

/-- The per-sample loop run over the first n frames, in order. -/
def sumLoop (data : ℕ → ℝ) (channels : ℕ) (st : LoopState) : ℕ → LoopState
  | 0 => st
  | n + 1 => frameStep data channels n (sumLoop data channels st n)

/-- Reference-level selection of both capture callbacks
(AudioCapture_linux.cpp lines 447-456, AudioCapture_macos.cpp lines
541-550): the user override when the flag is set, otherwise -0.0 for
deviceType == 1 (microphone) and -14.0 otherwise (system output). -/
def effectiveRefDbfs (o : Options) : ℝ :=
  if o.referenceDbfsOverride then o.referenceDbfs
  else if o.deviceType = 1 then -0 else -14

/-- AudioCapture::stream_read_callback on Linux, for one peeked buffer.
Arguments mirror the data the callback reads: the sample data (indexed
as data[i * channels + c]), the channel count and frame count derived
from the peeked length, the sample rate of the stream, the two rand()
results consumed by the two VUBallistics::process calls, the shared
function-local static state and the member state of the instance whose
userdata pointer was registered.  A buffer with no channels or no
frames is dropped without further effect (the early returns).  The
result pairs the updated statics with the updated instance. -/
noncomputable def streamReadCallback (data : ℕ → ℝ) (channels frames rate : ℕ)
    (randL randR : ℕ) (g : LinuxStatics) (s : CaptureState) :
    LinuxStatics × CaptureState :=
  if channels < 1 ∨ frames = 0 then (g, s)
  else
    let lp := sumLoop data channels
      { prevL := g.prevL, prevR := g.prevR, sumL := 0, sumR := 0 } frames
    let rmsL := Real.sqrt (lp.sumL / (frames : ℝ))
    let rmsR := Real.sqrt (lp.sumR / (frames : ℝ))
    let wakeThreshold : ℝ := 0.002
    let rmsLs1 := if rmsL > wakeThreshold then rmsL * rmsL else g.rmsLsmooth
    let rmsRs1 := if rmsR > wakeThreshold then rmsR * rmsR else g.rmsRsmooth
    let vuTau : ℝ := 0.020
    let dt := min ((frames : ℝ) / (rate : ℝ)) 0.050
    let alpha := Real.exp (-dt / vuTau)
    let rmsLs2 := alpha * rmsLs1 + (1 - alpha) * (rmsL * rmsL)
    let rmsRs2 := alpha * rmsRs1 + (1 - alpha) * (rmsR * rmsR)
    let rmsLvu0 := Real.sqrt rmsLs2
    let rmsRvu0 := Real.sqrt rmsRs2
    let noiseFloor : ℝ := 0.001
    let rmsLvu := if rmsLvu0 < noiseFloor then 0 else rmsLvu0
    let rmsRvu := if rmsRvu0 < noiseFloor then 0 else rmsRvu0
    let eps : ℝ := 1e-12
    let dbfsL := 20 * Real.logb 10 (max rmsLvu eps)
    let dbfsR := 20 * Real.logb 10 (max rmsRvu eps)
    let targetVuL := dbfsL - effectiveRefDbfs s.options
    let targetVuR := dbfsR - effectiveRefDbfs s.options
    let wake := g.meterAwake = false ∧ (rmsLvu > 0.002 ∨ rmsRvu > 0.002)
    let bL0 := if wake then s.ballisticsL.reset targetVuL else s.ballisticsL
    let bR0 := if wake then s.ballisticsR.reset targetVuR else s.ballisticsR
    let awake1 := if wake then true else g.meterAwake
    let vuL := stdClamp (bL0.processOut targetVuL dt randL) kMinVu kMaxVu
    let vuR := stdClamp (bR0.processOut targetVuR dt randR) kMinVu kMaxVu
    ({ prevL := lp.prevL, prevR := lp.prevR, rmsLsmooth := rmsLs2, rmsRsmooth := rmsRs2,
       meterAwake := awake1 },
     { s with
       ballisticsL := bL0.processState targetVuL dt
       ballisticsR := bR0.processState targetVuR dt
       leftVuDb := vuL
       rightVuDb := vuR })

/-! ## macOS backend (src/AudioCapture_macos.cpp) -/

/-- Member state of one AudioCapture instance on the macOS build.  In
contrast to the Linux build, the filter state rmsL_smooth_, rmsR_smooth_,
prevL_, prevR_ and meterAwake_ consists of member fields of the
instance (AudioCapture.h lines 110-126).  The CoreAudio handles
(audioQueue_, buffers_) are opaque resources and are not part of the
value model. -/
structure MacCaptureState where
  options : Options
  currentDeviceUID : String
  leftVuDb : ℝ
  rightVuDb : ℝ
  running : Bool
  rmsLsmooth : ℝ
  rmsRsmooth : ℝ
  prevL : ℝ
  prevR : ℝ
  meterAwake : Bool
  ballisticsL : VUBallistics
  ballisticsR : VUBallistics

/-- Outcome of the CoreAudio calls made by AudioCapture::start on macOS:
whether AudioQueueNewInput succeeds, whether AudioQueueSetProperty for a
named device succeeds, the resolved default-device UID when no device
name is set (none when either CoreAudio lookup fails), whether all
buffer allocate and enqueue calls succeed, and whether AudioQueueStart
succeeds. -/
structure MacStartEnv where
  queueCreateOk : Bool
  setDeviceOk : Bool
  defaultDeviceUID : Option String
  buffersOk : Bool
  queueStartOk : Bool

/-- AudioCapture::start on macOS.  If already running it returns true at
once.  Failure of AudioQueueNewInput or of AudioQueueSetProperty leaves
the modelled fields unchanged.  When a device name is set and the
property call succeeds, currentDeviceUID_ is assigned from
options_.deviceName BEFORE the buffers are allocated and the queue is
started, so the later failure paths return false with currentDeviceUID_
already updated.  When no device name is set, currentDeviceUID_ is
assigned the resolved default-device UID when the lookup succeeds. -/
def macStart (env : MacStartEnv) (s : MacCaptureState) : Bool × MacCaptureState :=
  if s.running then (true, s)
  else if env.queueCreateOk = false then (false, s)
  else
    if s.options.deviceName.isEmpty = false then
      if env.setDeviceOk = false then (false, s)
      else
        let s1 := { s with currentDeviceUID := s.options.deviceName }
        if env.buffersOk = false then (false, s1)
        else if env.queueStartOk = false then (false, s1)
        else (true, { s1 with running := true })
    else
      let s1 := match env.defaultDeviceUID with
        | some uid => { s with currentDeviceUID := uid }
        | none => s
      if env.buffersOk = false then (false, s1)
      else if env.queueStartOk = false then (false, s1)
      else (true, { s1 with running := true })

/-- AudioCapture::stop on macOS: a no-op when not running, otherwise it
stops and disposes the queue and clears the buffer pointers, leaving
running_ = false on the modelled fields. -/
def macStop (s : MacCaptureState) : MacCaptureState :=
  if s.running then { s with running := false } else s

/-- AudioCapture::switchDevice on macOS: stop(); zero the smoothed and
pre-emphasis memory and the wake flag; reset both ballistics engines and
both published levels to kMinVu; set options_.deviceName; start().  On
success currentDeviceUID_ is set and deviceChanged emitted. -/
def macSwitchDevice (env : MacStartEnv) (s : MacCaptureState) (deviceUID : String) :
    Bool × MacCaptureState × List Signal :=
  let s1 := macStop s
  let s2 := { s1 with
    rmsLsmooth := 0
    rmsRsmooth := 0
    prevL := 0
    prevR := 0
    meterAwake := false
    ballisticsL := s1.ballisticsL.reset kMinVu
    ballisticsR := s1.ballisticsR.reset kMinVu
    leftVuDb := kMinVu
    rightVuDb := kMinVu }
  let s3 := { s2 with options := { s2.options with deviceName := deviceUID } }
  let r := macStart env s3
  if r.1 then (true, { r.2 with currentDeviceUID := deviceUID }, [Signal.deviceChanged deviceUID])
  else (false, r.2, [])

/-- AudioCapture::processAudioBuffer on macOS.  Identical level pipeline
to the Linux callback, but the filter state lives in the member fields
of the instance itself; a zero-frame buffer is a no-op. -/
noncomputable def macProcessAudioBuffer (data : ℕ → ℝ) (frames channels : ℕ)
    (sampleRate : ℝ) (randL randR : ℕ) (s : MacCaptureState) : MacCaptureState :=
  if frames = 0 then s
  else
    let lp := sumLoop data channels
      { prevL := s.prevL, prevR := s.prevR, sumL := 0, sumR := 0 } frames
    let rmsL := Real.sqrt (lp.sumL / (frames : ℝ))
    let rmsR := Real.sqrt (lp.sumR / (frames : ℝ))
    let wakeThreshold : ℝ := 0.002
    let rmsLs1 := if rmsL > wakeThreshold then rmsL * rmsL else s.rmsLsmooth
    let rmsRs1 := if rmsR > wakeThreshold then rmsR * rmsR else s.rmsRsmooth
    let vuTau : ℝ := 0.020
    let dt := min ((frames : ℝ) / sampleRate) 0.050
    let alpha := Real.exp (-dt / vuTau)
    let rmsLs2 := alpha * rmsLs1 + (1 - alpha) * (rmsL * rmsL)
    let rmsRs2 := alpha * rmsRs1 + (1 - alpha) * (rmsR * rmsR)
    let rmsLvu0 := Real.sqrt rmsLs2
    let rmsRvu0 := Real.sqrt rmsRs2
    let noiseFloor : ℝ := 0.001
    let rmsLvu := if rmsLvu0 < noiseFloor then 0 else rmsLvu0
    let rmsRvu := if rmsRvu0 < noiseFloor then 0 else rmsRvu0
    let eps : ℝ := 1e-12
    let dbfsL := 20 * Real.logb 10 (max rmsLvu eps)
    let dbfsR := 20 * Real.logb 10 (max rmsRvu eps)
    let targetVuL := dbfsL - effectiveRefDbfs s.options
    let targetVuR := dbfsR - effectiveRefDbfs s.options
    let wake := s.meterAwake = false ∧ (rmsLvu > 0.002 ∨ rmsRvu > 0.002)
    let bL0 := if wake then s.ballisticsL.reset targetVuL else s.ballisticsL
    let bR0 := if wake then s.ballisticsR.reset targetVuR else s.ballisticsR
    let awake1 := if wake then true else s.meterAwake
    let vuL := stdClamp (bL0.processOut targetVuL dt randL) kMinVu kMaxVu
    let vuR := stdClamp (bR0.processOut targetVuR dt randR) kMinVu kMaxVu
    { s with
      prevL := lp.prevL
      prevR := lp.prevR
      rmsLsmooth := rmsLs2
      rmsRsmooth := rmsRs2
      meterAwake := awake1
      ballisticsL := bL0.processState targetVuL dt
      ballisticsR := bR0.processState targetVuR dt
      leftVuDb := vuL
      rightVuDb := vuR }

/-! ## Concrete fixtures used by the closed evaluations below -/

/-- Default options as built by main.cpp with no flags: reference -18
without override, 48 kHz, 512 frames, no device name, sink monitor. -/
def opts0 : Options :=
  { deviceIndex := -1, referenceDbfs := -18, referenceDbfsOverride := false,
    sampleRate := 48000, framesPerBuffer := 512, deviceName := "", deviceType := 0 }

/-- Fresh capture instance over opts0 (not running). -/
def capture0 : CaptureState :=
  CaptureState.init opts0

/-- The same instance once running. -/
def captureRun : CaptureState :=
  { CaptureState.init opts0 with running := true }

/-- Options with a user reference override of -10 dBFS. -/
def optsOver : Options :=
  { opts0 with referenceDbfs := -10, referenceDbfsOverride := true }

/-- A buffer whose samples are all 1.0. -/
def dataOnes : ℕ → ℝ :=
  fun _ => 1

/-- Initial values of the Linux callback function-local statics. -/
def statics0 : LinuxStatics :=
  { prevL := 0, prevR := 0, rmsLsmooth := 0, rmsRsmooth := 0, meterAwake := false }

/-- Options selecting the device named devA. -/
def optsA : Options :=
  { opts0 with deviceName := "devA" }

/-- A macOS capture instance currently streaming from devA, with
nonzero filter state and arbitrary published levels. -/
def macStateA : MacCaptureState :=
  { options := optsA, currentDeviceUID := "devA", leftVuDb := 1, rightVuDb := 2,
    running := true, rmsLsmooth := 0.5, rmsRsmooth := 0.5, prevL := 0.3, prevR := 0.3,
    meterAwake := true, ballisticsL := ⟨0, 0⟩, ballisticsR := ⟨0, 0⟩ }

/-- CoreAudio outcome in which queue creation and device selection
succeed but buffer allocation fails (AudioQueueAllocateBuffer or
AudioQueueEnqueueBuffer returns an error). -/
def envAllocFail : MacStartEnv :=
  { queueCreateOk := true, setDeviceOk := true, defaultDeviceUID := none,
    buffersOk := false, queueStartOk := true }

/-! ## Helper lemmas -/

/-- The value of std::clamp lies between its bounds whenever lo <= hi. -/
theorem stdClamp_le (v lo hi : ℝ) (h : lo ≤ hi) :
    lo ≤ stdClamp v lo hi ∧ stdClamp v lo hi ≤ hi := by
  unfold stdClamp
  split_ifs with h1 h2
  · exact ⟨le_refl lo, h⟩
  · exact ⟨h, le_refl hi⟩
  · exact ⟨le_of_not_lt h1, le_of_not_lt h2⟩

/-- The jitter term is at most 0.001 in magnitude: rand() % 40 lies in
[0, 39], so ((rand() % 40) / 20000) - 0.001 lies in [-0.001, 0.00095]. -/
theorem jitter_bound (r : ℕ) : |jitter r| ≤ 0.001 := by
  have h1 : r % 40 ≤ 39 := by omega
  have h1R : ((r % 40 : ℕ) : ℝ) ≤ 39 := by exact_mod_cast h1
  have h0 : (0 : ℝ) ≤ ((r % 40 : ℕ) : ℝ) := Nat.cast_nonneg _
  rw [abs_le]
  unfold jitter
  constructor
  · linarith
  · linarith

/-- The one-pole filter is a fixed point at equal state and input. -/
theorem onePole_self (v dt tau : ℝ) : onePole v v dt tau = v := by
  unfold onePole
  split_ifs with h
  · rfl
  · ring

/-- After reset(v), one process step with target v keeps both internal
states exactly at v. -/
theorem processState_reset_self (b : VUBallistics) (v dt : ℝ) :
    (b.reset v).processState v dt = { value := v, peak := v } := by
  simp [VUBallistics.processState, VUBallistics.reset, lt_self_iff_false, onePole_self]

/-! ## Claim theorems -/

/-- Claim C5: for positive dt and tau the one-pole filter of
VUBallistics.cpp updates exactly by y_new = a*y + (1-a)*x with
a = exp(-dt/tau), and for tau <= 0 it returns the input x directly
(the denominator branch is never taken, so nothing is divided by zero
and, over the real-number model of float, no NaN arises). -/
theorem onePole_update_rule :
    (∀ y x dt tau : ℝ, 0 < dt → 0 < tau →
      onePole y x dt tau = Real.exp (-dt / tau) * y + (1 - Real.exp (-dt / tau)) * x)
    ∧ (∀ y x dt tau : ℝ, tau ≤ 0 → onePole y x dt tau = x) := by
  constructor
  · intro y x dt tau _ htau
    unfold onePole
    rw [if_neg (not_le.mpr htau)]
  · intro y x dt tau htau
    unfold onePole
    rw [if_pos htau]

/-- Witness for C5 at y = 2, x = 5, dt = 1, tau = 1 and at tau = 0. -/
theorem onePole_update_rule_witness :
    ((0 : ℝ) < 1
      ∧ onePole 2 5 1 1 = Real.exp (-1 / 1) * 2 + (1 - Real.exp (-1 / 1)) * 5)
    ∧ ((0 : ℝ) ≤ 0 ∧ onePole 2 5 1 0 = 5) :=
  ⟨⟨one_pos, onePole_update_rule.1 2 5 1 1 one_pos one_pos⟩,
   ⟨le_refl 0, onePole_update_rule.2 2 5 1 0 (le_refl 0)⟩⟩

/-- Claim C6: VUBallistics::process advances the primary state with the
attack time constant exactly when the target exceeds it and with the
release time constant otherwise, and likewise for the peak follower
with its own pair; the attack constants (0.080 s and 0.010 s) are
strictly shorter than the matching release constants (0.320 s and
0.200 s). -/
theorem process_time_constant_selection :
    (∀ (b : VUBallistics) (tgt dt : ℝ), tgt > b.value →
      (b.processState tgt dt).value = onePole b.value tgt (max 0.000001 dt) attackTau)
    ∧ (∀ (b : VUBallistics) (tgt dt : ℝ), ¬tgt > b.value →
      (b.processState tgt dt).value = onePole b.value tgt (max 0.000001 dt) releaseTau)
    ∧ (∀ (b : VUBallistics) (tgt dt : ℝ), tgt > b.peak →
      (b.processState tgt dt).peak = onePole b.peak tgt (max 0.000001 dt) peakAttackTau)
    ∧ (∀ (b : VUBallistics) (tgt dt : ℝ), ¬tgt > b.peak →
      (b.processState tgt dt).peak = onePole b.peak tgt (max 0.000001 dt) peakReleaseTau)
    ∧ attackTau = 0.080 ∧ releaseTau = 0.320 ∧ attackTau < releaseTau
    ∧ peakAttackTau = 0.010 ∧ peakReleaseTau = 0.200 ∧ peakAttackTau < peakReleaseTau := by
  refine ⟨?_, ?_, ?_, ?_, rfl, rfl, by norm_num [attackTau, releaseTau], rfl, rfl,
    by norm_num [peakAttackTau, peakReleaseTau]⟩
  · intro b tgt dt h
    simp only [VUBallistics.processState]
    rw [if_pos h]
  · intro b tgt dt h
    simp only [VUBallistics.processState]
    rw [if_neg h]
  · intro b tgt dt h
    simp only [VUBallistics.processState]
    rw [if_pos h]
  · intro b tgt dt h
    simp only [VUBallistics.processState]
    rw [if_neg h]

/-- Witness for C6: a rising target (1 over state 0) takes the attack
constants and a falling target (-1 under state 0) the release ones. -/
theorem process_time_constant_selection_witness :
    ((1 : ℝ) > (VUBallistics.init 0).value
      ∧ ((VUBallistics.init 0).processState 1 1).value
        = onePole (VUBallistics.init 0).value 1 (max 0.000001 1) attackTau)
    ∧ (¬(-1 : ℝ) > (VUBallistics.init 0).peak
      ∧ ((VUBallistics.init 0).processState (-1) 1).peak
        = onePole (VUBallistics.init 0).peak (-1) (max 0.000001 1) peakReleaseTau) := by
  constructor
  · have h : (1 : ℝ) > (VUBallistics.init 0).value := by norm_num [VUBallistics.init]
    exact ⟨h, process_time_constant_selection.1 (VUBallistics.init 0) 1 1 h⟩
  · have h : ¬(-1 : ℝ) > (VUBallistics.init 0).peak := by norm_num [VUBallistics.init]
    exact ⟨h, process_time_constant_selection.2.2.2.1 (VUBallistics.init 0) (-1) 1 h⟩

/-- Claim C7: reset(v) followed immediately by process(v, dt) returns a
value within the jitter bound (0.001 meter units) of v: the filter
update fixes both internal states at v and the overshoot mix of equal
states is v again, so the output differs from v by the jitter alone. -/
theorem reset_then_process_no_transient :
    ∀ (b : VUBallistics) (v dt : ℝ) (r : ℕ), 0 < dt →
      |(b.reset v).processOut v dt r - v| ≤ 0.001 := by
  intro b v dt r _
  have hbase : (b.reset v).processBase v dt = v := by
    unfold VUBallistics.processBase
    rw [processState_reset_self]
    ring
  unfold VUBallistics.processOut
  rw [hbase, add_sub_cancel_left]
  exact jitter_bound r

/-- Witness for C7 at v = -3, dt = 1, rand() = 5. -/
theorem reset_then_process_no_transient_witness :
    (0 : ℝ) < 1
      ∧ |((VUBallistics.init 0).reset (-3)).processOut (-3) 1 5 - (-3)| ≤ 0.001 :=
  ⟨one_pos, reset_then_process_no_transient (VUBallistics.init 0) (-3) 1 5 one_pos⟩

/-- Claim C8: the time step of VUBallistics::process is clamped to the
strictly positive minimum 0.000001 before any use (the state update is
invariant under replacing dtSeconds by the clamped value, and the
clamped value is positive for every dtSeconds, zero and negative
included), and the jitter added to the output moves it by at most 0.002
meter units. -/
theorem process_dt_clamp_and_jitter_bound :
    (∀ dt : ℝ, 0 < max 0.000001 dt)
    ∧ (∀ (b : VUBallistics) (tgt dt : ℝ),
        b.processState tgt dt = b.processState tgt (max 0.000001 dt))
    ∧ (∀ (b : VUBallistics) (tgt dt : ℝ) (r : ℕ),
        |b.processOut tgt dt r - b.processBase tgt dt| ≤ 0.002) := by
  refine ⟨?_, ?_, ?_⟩
  · intro dt
    exact lt_max_iff.mpr (Or.inl (by norm_num))
  · intro b tgt dt
    have hmax : max (0.000001 : ℝ) (max 0.000001 dt) = max 0.000001 dt := by
      rw [← max_assoc, max_self]
    unfold VUBallistics.processState
    rw [hmax]
  · intro b tgt dt r
    unfold VUBallistics.processOut
    rw [add_sub_cancel_left]
    linarith [jitter_bound r, abs_nonneg (jitter r)]

/-- Claim C9: setReferenceDbfs(x) followed by referenceDbfs() returns
exactly x, for every state and every x. -/
theorem referenceDbfs_roundtrip :
    ∀ (s : CaptureState) (x : ℝ), referenceDbfs (setReferenceDbfs s x) = x := by
  intro s x
  rfl

/-- Claim C10: start() on an already running session returns true with
the session state untouched, on both backends; stop() on a session that
is not running is the identity, hence stop() is idempotent and safe to
call again from the destructor, on both backends. -/
theorem start_stop_guard :
    (∀ (env : Bool) (s : CaptureState), s.running = true → start env s = (true, s))
    ∧ (∀ s : CaptureState, s.running = false → stop s = s)
    ∧ (∀ s : CaptureState, stop (stop s) = stop s)
    ∧ (∀ (env : MacStartEnv) (s : MacCaptureState), s.running = true → macStart env s = (true, s))
    ∧ (∀ s : MacCaptureState, s.running = false → macStop s = s)
    ∧ (∀ s : MacCaptureState, macStop (macStop s) = macStop s) := by
  refine ⟨?_, ?_, ?_, ?_, ?_, ?_⟩
  · intro env s h
    simp [start, h]
  · intro s h
    simp [stop, h]
  · intro s
    by_cases h : s.running <;> simp [stop, h]
  · intro env s h
    simp [macStart, h]
  · intro s h
    simp [macStop, h]
  · intro s
    by_cases h : s.running <;> simp [macStop, h]

/-- Witness for C10 on the running and stopped fixtures. -/
theorem start_stop_guard_witness :
    (captureRun.running = true ∧ start true captureRun = (true, captureRun))
    ∧ (capture0.running = false ∧ stop capture0 = capture0) :=
  ⟨⟨rfl, start_stop_guard.1 true captureRun rfl⟩,
   ⟨rfl, start_stop_guard.2.1 capture0 rfl⟩⟩

/-- Claim C4: the reference level subtracted from the dBFS value by the
capture callbacks is the user override when the flag is set, otherwise
-0.0 for microphone capture (deviceType == 1) and -14.0 for system
output monitoring (deviceType == 0); the two defaults differ and the
system-output default attenuates the target less (the resulting target
is larger for the same dBFS value). -/
theorem effectiveRef_selection :
    (∀ (o : Options) (dbfs : ℝ), o.referenceDbfsOverride = true →
      dbfs - effectiveRefDbfs o = dbfs - o.referenceDbfs)
    ∧ (∀ (o : Options) (dbfs : ℝ), o.referenceDbfsOverride = false → o.deviceType = 1 →
      dbfs - effectiveRefDbfs o = dbfs - (-0))
    ∧ (∀ (o : Options) (dbfs : ℝ), o.referenceDbfsOverride = false → o.deviceType = 0 →
      dbfs - effectiveRefDbfs o = dbfs - (-14))
    ∧ ((-0 : ℝ) ≠ -14)
    ∧ (∀ dbfs : ℝ, dbfs - (-0 : ℝ) < dbfs - (-14 : ℝ)) := by
  refine ⟨?_, ?_, ?_, by norm_num, fun dbfs => by norm_num⟩
  · intro o dbfs h
    simp [effectiveRefDbfs, h]
  · intro o dbfs h1 h2
    simp [effectiveRefDbfs, h1, h2]
  · intro o dbfs h1 h2
    simp [effectiveRefDbfs, h1, h2]

/-- Witness for C4: the override fixture uses its own reference, the
default fixture (deviceType 0, no override) uses -14. -/
theorem effectiveRef_selection_witness :
    (optsOver.referenceDbfsOverride = true
      ∧ (0 : ℝ) - effectiveRefDbfs optsOver = 0 - optsOver.referenceDbfs)
    ∧ (opts0.referenceDbfsOverride = false ∧ opts0.deviceType = 0
      ∧ (0 : ℝ) - effectiveRefDbfs opts0 = 0 - (-14)) :=
  ⟨⟨rfl, effectiveRef_selection.1 optsOver 0 rfl⟩,
   ⟨rfl, rfl, effectiveRef_selection.2.2.1 opts0 0 rfl rfl⟩⟩

/-- The Linux switchDevice is atomic as the spec demands: on failure the
previous device stays current, nothing is emitted and the published
levels sit at the display floor; on success the new device is current
and exactly one deviceChanged signal is emitted. -/
theorem switchDevice_linux_atomic :
    ∀ (env : Bool) (s : CaptureState) (uid : String),
      ((switchDevice env s uid).1 = false →
        (switchDevice env s uid).2.1.currentDeviceUID = s.currentDeviceUID
        ∧ (switchDevice env s uid).2.1.leftVuDb = kMinVu
        ∧ (switchDevice env s uid).2.1.rightVuDb = kMinVu
        ∧ (switchDevice env s uid).2.2 = [])
      ∧ ((switchDevice env s uid).1 = true →
        (switchDevice env s uid).2.1.currentDeviceUID = uid
        ∧ (switchDevice env s uid).2.1.leftVuDb = kMinVu
        ∧ (switchDevice env s uid).2.1.rightVuDb = kMinVu
        ∧ (switchDevice env s uid).2.2 = [Signal.deviceChanged uid]) := by
  intro env s uid
  by_cases hrun : s.running <;> by_cases henv : env <;>
    constructor <;>
      intro h <;>
        simp_all [switchDevice, start, stop]

/-- Claim C1: both capture callbacks publish only clamped levels (if the
previously published pair lay in [kMinVu, kMaxVu] = [-22, 3], so does the
pair after any buffer, on both backends, because a processed buffer
stores std::clamp of the ballistics output and a rejected buffer stores
nothing), the constructor publishes -22 which lies in the range, and the
ballistics engine state itself is not clamped: a process step can leave
the internal value above kMaxVu. -/
theorem published_levels_clamped :
    (∀ (data : ℕ → ℝ) (channels frames rate randL randR : ℕ)
        (g : LinuxStatics) (s : CaptureState),
      kMinVu ≤ s.leftVuDb → s.leftVuDb ≤ kMaxVu →
      kMinVu ≤ s.rightVuDb → s.rightVuDb ≤ kMaxVu →
      (kMinVu ≤ (streamReadCallback data channels frames rate randL randR g s).2.leftVuDb
        ∧ (streamReadCallback data channels frames rate randL randR g s).2.leftVuDb ≤ kMaxVu
        ∧ kMinVu ≤ (streamReadCallback data channels frames rate randL randR g s).2.rightVuDb
        ∧ (streamReadCallback data channels frames rate randL randR g s).2.rightVuDb ≤ kMaxVu))
    ∧ (∀ (data : ℕ → ℝ) (frames channels : ℕ) (sampleRate : ℝ) (randL randR : ℕ)
        (s : MacCaptureState),
      kMinVu ≤ s.leftVuDb → s.leftVuDb ≤ kMaxVu →
      kMinVu ≤ s.rightVuDb → s.rightVuDb ≤ kMaxVu →
      (kMinVu ≤ (macProcessAudioBuffer data frames channels sampleRate randL randR s).leftVuDb
        ∧ (macProcessAudioBuffer data frames channels sampleRate randL randR s).leftVuDb ≤ kMaxVu
        ∧ kMinVu ≤ (macProcessAudioBuffer data frames channels sampleRate randL randR s).rightVuDb
        ∧ (macProcessAudioBuffer data frames channels sampleRate randL randR s).rightVuDb ≤ kMaxVu))
    ∧ (∀ o : Options,
      kMinVu ≤ (CaptureState.init o).leftVuDb ∧ (CaptureState.init o).leftVuDb ≤ kMaxVu
        ∧ kMinVu ≤ (CaptureState.init o).rightVuDb ∧ (CaptureState.init o).rightVuDb ≤ kMaxVu)
    ∧ (∃ (b : VUBallistics) (tgt dt : ℝ), kMaxVu < (b.processState tgt dt).value) := by
  have hrange : kMinVu ≤ kMaxVu := by norm_num [kMinVu, kMaxVu]
  refine ⟨?_, ?_, ?_, ?_⟩
  · intro data channels frames rate randL randR g s h1 h2 h3 h4
    unfold streamReadCallback
    by_cases h : channels < 1 ∨ frames = 0
    · rw [if_pos h]
      exact ⟨h1, h2, h3, h4⟩
    · rw [if_neg h]
      exact ⟨(stdClamp_le _ _ _ hrange).1, (stdClamp_le _ _ _ hrange).2,
        (stdClamp_le _ _ _ hrange).1, (stdClamp_le _ _ _ hrange).2⟩
  · intro data frames channels sampleRate randL randR s h1 h2 h3 h4
    unfold macProcessAudioBuffer
    by_cases h : frames = 0
    · rw [if_pos h]
      exact ⟨h1, h2, h3, h4⟩
    · rw [if_neg h]
      exact ⟨(stdClamp_le _ _ _ hrange).1, (stdClamp_le _ _ _ hrange).2,
        (stdClamp_le _ _ _ hrange).1, (stdClamp_le _ _ _ hrange).2⟩
  · intro o
    refine ⟨?_, ?_, ?_, ?_⟩ <;> norm_num [CaptureState.init, kMinVu, kMaxVu]
  · refine ⟨⟨10, 10⟩, 10, 1, ?_⟩
    have h10 : (VUBallistics.processState ⟨10, 10⟩ 10 1).value = 10 := by
      simp [VUBallistics.processState, lt_self_iff_false, onePole_self]
    rw [h10]
    norm_num [kMaxVu]

/-- Witness for C1: the fresh instance publishes -22 on both channels,
and a zero-channel buffer leaves the published pair inside the range. -/
theorem published_levels_clamped_witness :
    (kMinVu ≤ capture0.leftVuDb ∧ capture0.leftVuDb ≤ kMaxVu
      ∧ kMinVu ≤ capture0.rightVuDb ∧ capture0.rightVuDb ≤ kMaxVu)
    ∧ (kMinVu ≤ (streamReadCallback dataOnes 0 0 0 0 0 statics0 capture0).2.leftVuDb
      ∧ (streamReadCallback dataOnes 0 0 0 0 0 statics0 capture0).2.leftVuDb ≤ kMaxVu
      ∧ kMinVu ≤ (streamReadCallback dataOnes 0 0 0 0 0 statics0 capture0).2.rightVuDb
      ∧ (streamReadCallback dataOnes 0 0 0 0 0 statics0 capture0).2.rightVuDb ≤ kMaxVu) := by
  have h1 : kMinVu ≤ capture0.leftVuDb := by
    norm_num [capture0, CaptureState.init, kMinVu]
  have h2 : capture0.leftVuDb ≤ kMaxVu := by
    norm_num [capture0, CaptureState.init, kMinVu, kMaxVu]
  have h3 : kMinVu ≤ capture0.rightVuDb := by
    norm_num [capture0, CaptureState.init, kMinVu]
  have h4 : capture0.rightVuDb ≤ kMaxVu := by
    norm_num [capture0, CaptureState.init, kMinVu, kMaxVu]
  exact ⟨⟨h1, h2, h3, h4⟩,
    published_levels_clamped.1 dataOnes 0 0 0 0 0 statics0 capture0 h1 h2 h3 h4⟩

/-- Claim C2, failing evaluation: on the macOS backend, switchDevice to
devB in an environment where queue creation and device selection succeed
but buffer allocation fails returns false without emitting deviceChanged
and with both published levels reset to the display floor, yet leaves
currentDeviceUID_ already set to devB: the previous device devA is no
longer logically current, contradicting the claimed atomicity. -/
theorem macSwitchDevice_failed_start_updates_uid :
    (macSwitchDevice envAllocFail macStateA "devB").1 = false
    ∧ macStateA.currentDeviceUID = "devA"
    ∧ (macSwitchDevice envAllocFail macStateA "devB").2.1.currentDeviceUID = "devB"
    ∧ (macSwitchDevice envAllocFail macStateA "devB").2.1.currentDeviceUID
        ≠ macStateA.currentDeviceUID
    ∧ (macSwitchDevice envAllocFail macStateA "devB").2.1.leftVuDb = kMinVu
    ∧ (macSwitchDevice envAllocFail macStateA "devB").2.1.rightVuDb = kMinVu
    ∧ (macSwitchDevice envAllocFail macStateA "devB").2.2 = [] := by
  have hB : ("devB" : String).isEmpty = false := rfl
  refine ⟨?_, rfl, ?_, ?_, ?_, ?_, ?_⟩ <;>
    simp [macSwitchDevice, macStop, macStart, macStateA, envAllocFail, optsA, opts0, hB]

/-- Claim C3, failing evaluation: on the Linux backend the per-buffer
filter state is held in function-local statics shared by every
AudioCapture instance, so running the capture callback of one instance
mutates the pre-emphasis memory that every other instance reads: after
one instance processes a single stereo frame of amplitude 1.0, the
shared prevL has changed from 0 to 1 for all instances. -/
theorem linux_shared_statics_corruption :
    statics0.prevL = 0
    ∧ (streamReadCallback dataOnes 2 1 48000 0 0 statics0 capture0).1.prevL = 1
    ∧ (streamReadCallback dataOnes 2 1 48000 0 0 statics0 capture0).1.prevL
        ≠ statics0.prevL := by
  have h : (streamReadCallback dataOnes 2 1 48000 0 0 statics0 capture0).1.prevL = 1 := by
    simp [streamReadCallback, sumLoop, frameStep, dataOnes, statics0]
  refine ⟨rfl, h, ?_⟩
  rw [h, show statics0.prevL = 0 from rfl]
  norm_num

end AnalogVu
